import Mathlib

/-!
Verification development for the h2ws repository: a shallow embedding of the
WebSocket-over-HTTP/2 frame codec (`src/streams/ws-h2stream.mjs`), the plain
HTTP/2 stream wrapper (`src/streams/h2stream.mjs`) and the mesh link manager
(`src/mesh.mjs`, third and most complete `Mesh` class in the file), together
with theorems checking the natural-language specification against it.

Modelling conventions:
* A byte sequence (Node `Buffer` / `Uint8Array`) is a `List Nat` whose
  entries are `< 256`; JavaScript bitwise operators on bytes are `&&&`,
  `|||`, `^^^` on `Nat`.
* Reading an out-of-range index of a `Buffer` yields `undefined`, which the
  bitwise operators coerce to `0`; this is mirrored with `List.getD _ _ 0`.
* JavaScript exceptions (`TypeError` from property access on `undefined`,
  `TypeError` from placing a `BigInt` into `Buffer.from`) are modelled with
  `Except JsError`.
* Typed-array views are platform-endian; every Node deployment platform is
  little-endian, so the `BigUint64Array` read in the decoder is modelled as a
  little-endian byte fold.
* Logging through the injected `logger` is not modelled (it never touches the
  stream or the registries).
-/

deriving instance DecidableEq for Except

namespace H2ws

/-- A JavaScript runtime exception, as thrown by the embedded code paths. -/
inductive JsError where
  /-- `TypeError`, e.g. property access on `undefined` or a `BigInt` where a
  number is required. -/
  | typeError (msg : String)
  /-- A plain `Error` thrown with `throw new Error(msg)`. -/
  | error (msg : String)
  deriving DecidableEq, Repr

/-- Little-endian value of a byte list: `b0 + 256*b1 + ...`.  This is how
`new BigUint64Array(uint8.buffer)[0]` reads bytes on the (little-endian)
platforms Node runs on. -/
def leValue (bytes : List Nat) : Nat :=
  bytes.foldr (fun b acc => b + 256 * acc) 0

/-- Modelled from the spec: the big-endian ("network byte order") value of a
byte list, the interpretation RFC 6455 and the spec prescribe for the
extended payload-length fields.  Used only to state how far the code's
decoding deviates from the spec. -/
def specBigEndianValue (bytes : List Nat) : Nat :=
  bytes.foldl (fun acc b => acc * 256 + b) 0

/-- The result object of `WsH2Stream.#fragmentInterpreter`: one parsed
WebSocket frame fragment.  `isFinal`/`rsv*` keep the raw masked numbers the
code stores (JavaScript truthiness: nonzero means set). -/
structure Fragment where
  isFinal : Nat
  rsv1 : Nat
  rsv2 : Nat
  rsv3 : Nat
  opcode : Nat
  payloadLength : Nat
  usesMasking : Bool
  maskingKey : Option (List Nat)
  payload : List Nat
  deriving DecidableEq, Repr

/-- `WsH2Stream.#fragmentInterpreter` (ws-h2stream.mjs lines 62-98).
Returns `none` for a zero-length input (the code returns `undefined`).
In the `126` length case the code computes
`new Uint16Array(new Uint8Array(buf.slice(2, 4)))[0]`: constructing a
`Uint16Array` from another typed array converts element-wise, so the result
is just the byte at offset 2.  In the `127` case the code computes
`new BigUint64Array(new Uint8Array(buf.slice(2, 10)).buffer)[0]`, a
platform-(little-)endian read of the 8 bytes at offsets 2..9. -/
def fragmentInterpreter (bytes : List Nat) : Option Fragment :=
  if bytes.length = 0 then none
  else
    let b0 := bytes.getD 0 0
    let b1 := bytes.getD 1 0
    let lengthField := b1 &&& 127
    let payloadLength :=
      if lengthField = 126 then bytes.getD 2 0
      else if lengthField = 127 then leValue ((bytes.drop 2).take 8)
      else lengthField
    let offset : Nat :=
      if lengthField = 126 then 4
      else if lengthField = 127 then 10
      else 2
    let usesMasking := b1 &&& 128 ≠ 0
    let maskingKey :=
      if usesMasking then some ((bytes.drop offset).take 4) else none
    let offsetAfterKey := if usesMasking then offset + 4 else offset
    some {
      isFinal := b0 &&& 128
      rsv1 := b0 &&& 64
      rsv2 := b0 &&& 32
      rsv3 := b0 &&& 16
      opcode := b0 &&& 15
      payloadLength := payloadLength
      usesMasking := usesMasking
      maskingKey := maskingKey
      payload := bytes.drop offsetAfterKey
    }

/-- Argument object of `WsH2Stream.#sendFrame`. -/
structure SendOptions where
  opcode : Nat
  payload : List Nat := []
  deriving DecidableEq, Repr

/-- `WsH2Stream.#sendFrame` (ws-h2stream.mjs lines 100-139), returning the
chunks written to the underlying stream.

The CLOSE/PING/PONG cases evaluate `WsH2Stream.OPCODES.CLOSE` (etc.); the
class has no public static `OPCODES` property (only the private
`#WS_CONSTANTS.OPCODES`), so `WsH2Stream.OPCODES` is `undefined` and the
property access throws a `TypeError` before anything is written.

The TEXT/BINARY case builds the length bytes:
* `length < 126`: `Buffer.from([length])`;
* `length < 65536`: `Buffer.from([126, ...new Uint16Array([length])])` — the
  spread of the one-element `Uint16Array` yields the single 16-bit element,
  which `Buffer.from` truncates to `length % 256`, so only one extended
  length byte is written;
* otherwise: `Buffer.from([127, ...new BigUint64Array([BigInt(length)])])` —
  the spread yields a `BigInt`, which `Buffer.from` cannot convert, throwing
  a `TypeError`.
An opcode matching no case writes nothing. -/
def sendFrame (opts : SendOptions) : Except JsError (List (List Nat)) :=
  if opts.opcode = 8 ∨ opts.opcode = 9 ∨ opts.opcode = 10 then
    .error (.typeError "Cannot read properties of undefined (reading OPCODES)")
  else if opts.opcode = 1 ∨ opts.opcode = 2 then
    let payloadLength := opts.payload.length
    if payloadLength < 126 then
      .ok [(128 ||| opts.opcode) :: payloadLength :: opts.payload]
    else if payloadLength < 65536 then
      .ok [(128 ||| opts.opcode) :: 126 :: (payloadLength % 256) :: opts.payload]
    else
      .error (.typeError "Cannot convert a BigInt to a number")
  else
    .ok []

/-- Observable effect of the channel's frame parsing on its environment:
writes/ends on the underlying stream and events emitted on the
`WsH2Stream` emitter.  For a text frame the code converts the concatenated
payload to a UTF-8 string before emitting; the effect records the raw bytes
together with the `type` tag. -/
inductive ChannelEffect where
  | streamEnd
  | emitPong (payload : List Nat)
  | emitFrame (opcode : Nat) (type : String) (payload : List Nat)
  deriving DecidableEq, Repr

/-- Unmasking step inside `WsH2Stream.#parseFrame` (lines 181-185):
`fragment.payload.map((byte, index) => byte ^ fragment.maskingKey[index % 4])`
when `fragment.usesMasking` is truthy, the payload unchanged otherwise.
A missing key byte is `undefined`, which `^` coerces to 0. -/
def unmaskFragment (f : Fragment) : List Nat :=
  if f.usesMasking then
    List.zipWith (fun i b => b ^^^ ((f.maskingKey.getD []).getD (i % 4) 0))
      (List.range f.payload.length) f.payload
  else f.payload

/-- Return `some` of the list of values when every entry is defined. -/
def allSome : List (Option Fragment) → Option (List Fragment)
  | [] => some []
  | none :: _ => none
  | some f :: t => (allSome t).map (fun fs => f :: fs)

/-- `WsH2Stream.#parseFrame` (ws-h2stream.mjs lines 147-192), acting on the
`#currentFrameFragments` array.  The array holds the raw results of
`#fragmentInterpreter`, so after a zero-length chunk it can contain an
`undefined` entry (`none` here); reading `.isFinal` (or any property) off
such an entry throws a `TypeError`.

Control handling: CLOSE ends the stream, PING calls `this.pong()` — which
runs `#sendFrame` with the PONG opcode and therefore throws the
`WsH2Stream.OPCODES` `TypeError` before the fragment is popped — PONG emits
the `pong` event, an unknown opcode `≥ 8` ends the stream; in the non-throwing
cases only the control fragment is popped.  A final non-control fragment
emits one `frame` event built from all accumulated fragments and clears the
array. -/
def parseFrame (frags : List (Option Fragment)) :
    Except JsError (List (Option Fragment) × List ChannelEffect) :=
  match frags.getLast? with
  | none =>
    .error (.typeError "Cannot read properties of undefined (reading isFinal)")
  | some none =>
    .error (.typeError "Cannot read properties of undefined (reading isFinal)")
  | some (some lastFragment) =>
    if lastFragment.isFinal = 0 then .ok (frags, [])
    else if 8 ≤ lastFragment.opcode then
      if lastFragment.opcode = 8 then .ok (frags.dropLast, [.streamEnd])
      else if lastFragment.opcode = 9 then
        .error
          (.typeError "Cannot read properties of undefined (reading OPCODES)")
      else if lastFragment.opcode = 10 then
        .ok (frags.dropLast, [.emitPong lastFragment.payload])
      else .ok (frags.dropLast, [.streamEnd])
    else
      match frags.head? with
      | none =>
        .error
          (.typeError "Cannot read properties of undefined (reading opcode)")
      | some none =>
        .error
          (.typeError "Cannot read properties of undefined (reading opcode)")
      | some (some firstFragment) =>
        match allSome frags with
        | none =>
          .error (.typeError
            "Cannot read properties of undefined (reading usesMasking)")
        | some fs =>
          let type :=
            if firstFragment.opcode = 1 then "text"
            else if firstFragment.opcode = 2 then "binary"
            else "unknown"
          let payload := (fs.map unmaskFragment).flatten
          .ok ([], [.emitFrame firstFragment.opcode type payload])

/-- The mutable per-channel state relevant to frame parsing. -/
structure ChannelState where
  fragments : List (Option Fragment) := []
  deriving DecidableEq, Repr

/-- `WsH2Stream.#dataListener` (ws-h2stream.mjs lines 268-273): push the
(possibly `undefined`) result of `#fragmentInterpreter` and run
`#parseFrame`. -/
def dataListener (st : ChannelState) (chunk : List Nat) :
    Except JsError (ChannelState × List ChannelEffect) :=
  match parseFrame (st.fragments ++ [fragmentInterpreter chunk]) with
  | .error e => .error e
  | .ok (frags, effects) => .ok (⟨frags⟩, effects)

/-- `WsH2Stream.#handshake` (ws-h2stream.mjs lines 275-289), given the
process-wide `acceptedProtocols` allow-list and the value of the
`sec-websocket-protocol` request header (`none` when absent).  Returns the
response status and the echoed `sec-websocket-protocol` header value.
JavaScript truthiness: an empty header string is falsy, so it is treated
like an absent header; an empty `matched` array has falsy `length`, so no
header is echoed.  The status is always `HTTP_STATUS_OK` (200). -/
def handshake (acceptedProtocols : List String) (protoHeader : Option String) :
    Nat × Option String :=
  match protoHeader with
  | none => (200, none)
  | some h =>
    if h = "" then (200, none)
    else
      let requested := h.splitOn ","
      let matched := requested.filter (fun p => acceptedProtocols.contains p)
      if matched.length = 0 then (200, none)
      else (200, some (String.intercalate "," matched))

/-- Response headers of the plain HTTP/2 wrapper, kept abstract as an
association list. -/
abbrev Headers := List (String × String)

/-- The second argument of `H2Stream.respond`. -/
structure RespondOptions where
  waitForTrailers : Bool := false
  endStream : Bool := false
  deriving DecidableEq, Repr

/-- Operations `H2Stream.respond` performs on its collaborators. -/
inductive StreamOp where
  /-- `this.#logger.error(msg)` — goes to the logger, not the stream. -/
  | logErrorOp (msg : String)
  /-- `this.#stream.respond(headers, ...)`. -/
  | streamRespond (headers : Headers) (waitForTrailers : Bool)
  /-- `this.#stream.end()` via `this.end()`. -/
  | streamEndOp
  deriving DecidableEq, Repr

/-- State of one `H2Stream` (h2stream.mjs).  `#errorProtocol` is initialised
to `"logger"` and no code path ever assigns it. -/
structure H2StreamState where
  sentHeaders : Option Headers := none
  closed : Bool := false
  errorProtocol : String := "logger"
  deriving DecidableEq, Repr

/-- `H2Stream.respond` (h2stream.mjs lines 52-64).  With headers already
sent it throws only under the `"throw"` error protocol; under any other it
logs and returns without touching the stream or `#sentHeaders`.  Otherwise
it stores the headers, responds on the underlying stream (forwarding only a
truthy `waitForTrailers`), and ends the stream when `endStream` was
requested. -/
def respond (st : H2StreamState) (headers : Headers) (opts : RespondOptions) :
    Except JsError (H2StreamState × List StreamOp) :=
  match st.sentHeaders with
  | some _ =>
    if st.errorProtocol = "throw" then .error (.error "Headers already sent.")
    else .ok (st, [.logErrorOp "Headers already sent."])
  | none =>
    let st1 : H2StreamState := { st with sentHeaders := some headers }
    if opts.endStream then
      .ok ({ st1 with closed := true },
        [.streamRespond headers opts.waitForTrailers, .streamEndOp])
    else
      .ok (st1, [.streamRespond headers opts.waitForTrailers])

/-- `localhostVariants` (mesh.mjs line 344). -/
def localhostVariants : List String := ["localhost", "127.0.0.1", "::1"]

/-- Association-list lookup used for the two registry indexes. -/
def lookupKey {α β : Type} [DecidableEq α] : List (α × β) → α → Option β
  | [], _ => none
  | (k, v) :: t, key => if k = key then some v else lookupKey t key

/-- `Mesh.#knownServerConnections` (mesh.mjs lines 425-428): two indexes over
the live inbound mesh streams, by session (each holding its stream ids) and
by the declared `ip:port` string.  Streams are identified by their numeric
stream id. -/
structure MeshState where
  bySession : List (Nat × List Nat) := []
  byIPAndPort : List (String × Nat) := []
  deriving DecidableEq, Repr

/-- One inbound stream request as seen by `Mesh.#meshStreamHandler`:
the carrying session and stream, the transport-observed remote address
(`stream.session.socket.remoteAddress`) and the two mesh headers (`none`
when absent). -/
structure StreamReq where
  sessionId : Nat
  streamId : Nat
  remoteAddress : String
  meshIp : Option String := none
  meshPort : Option String := none
  deriving DecidableEq, Repr

/-- The HTTP/2 response the handler sends on the new stream. -/
structure MeshResponse where
  status : Nat
  endStream : Bool
  deriving DecidableEq, Repr

/-- `Mesh.#meshStreamHandler` (mesh.mjs lines 497-535).
1. Both `mesh-ip` and `mesh-port` must be present, else status 400 with
   `endStream`.
2. The declared ip must equal the observed remote address, unless both are
   loopback variants; else status 400 with `endStream`.
3. A second stream declaring an `ip:port` string already in `byIPAndPort`
   gets status 404 with `endStream` and no registry change.
4. Otherwise the stream is recorded in both indexes
   (`bySession[sessionId].streams[streamId] = stream`, throwing if the
   session was never registered by `#meshSessionHandler`, and
   `byIPAndPort[key] = stream`) and the handler responds 200 without ending
   the stream. -/
def meshStreamHandler (st : MeshState) (req : StreamReq) :
    Except JsError (MeshState × MeshResponse) :=
  match req.meshIp, req.meshPort with
  | some ip, some port =>
    if ip ≠ req.remoteAddress ∧
        ¬(localhostVariants.contains ip ∧
          localhostVariants.contains req.remoteAddress) then
      .ok (st, ⟨400, true⟩)
    else
      let key := ip ++ ":" ++ port
      match lookupKey st.byIPAndPort key with
      | some _ => .ok (st, ⟨404, true⟩)
      | none =>
        match lookupKey st.bySession req.sessionId with
        | none =>
          .error (.typeError
            "Cannot read properties of undefined (reading streams)")
        | some _ =>
          .ok ({
              bySession := st.bySession.map (fun e =>
                if e.1 = req.sessionId then (e.1, e.2 ++ [req.streamId]) else e)
              byIPAndPort := (key, req.streamId) :: st.byIPAndPort
            }, ⟨200, false⟩)
  | _, _ => .ok (st, ⟨400, true⟩)

/-- Effects of the outbound `response` handler inside
`Mesh.#connectToMeshServers`. -/
inductive OutboundEffect where
  /-- `#processMeshStreamData` attached its `close`/`data`/`end` listeners to
  the outbound stream. -/
  | attachStreamDataHandlers (serverIpAndPort : String)
  /-- `outboundStream.write(payload)`. -/
  | streamWrite (payload : String)
  deriving DecidableEq, Repr

/-- The `outboundStream.on("response", ...)` handler of
`Mesh.#connectToMeshServers` (mesh.mjs lines 661-666): it calls
`#processMeshStreamData(outboundStream, serverIpAndPort1, true)` and writes
the application-level `"ping"` payload.  Neither it nor
`#processMeshStreamData` inserts anything into `#knownServerConnections`, so
the registry state is returned unchanged. -/
def outboundResponseHandler (st : MeshState) (serverIpAndPort : String) :
    MeshState × List OutboundEffect :=
  (st, [.attachStreamDataHandlers serverIpAndPort, .streamWrite "ping"])

/-- Actions of the coordinator startup sequence, in program order. -/
inductive MeshAction where
  /-- `await this.#getOtherMeshServesFn()` in `start()`. -/
  | getOtherServers
  /-- `await this.#connectToMeshServers(otherServers)` in `start()`. -/
  | connectToServers
  /-- `http2.createServer()` plus handler attachment in `#startMeshServer`. -/
  | createHttp2Server
  /-- `this.#meshHttp2Server.listen(port, ip)` in `#startMeshServer`. -/
  | listenCall (ip : String) (port : Nat)
  /-- The server's `listening` event: the listener is bound and accepting. -/
  | listeningBound
  /-- `this.#registerServerFn(ip, port)` — announcing this node in the
  shared directory. -/
  | registerServer (ip : String) (port : Nat)
  /-- `process.exit(code)`. -/
  | exitProcess (code : Nat)
  deriving DecidableEq, Repr

/-- Whether an action is the `listening` event. -/
def isListeningBound : MeshAction → Bool
  | .listeningBound => true
  | _ => false

/-- Whether an action registers the node in the shared directory. -/
def isRegisterAction : MeshAction → Bool
  | .registerServer _ _ => true
  | _ => false

/-- `Mesh.#meshListeningHandler` (mesh.mjs lines 574-580): it runs only on
the `listening` event; it calls `#registerServerFn(ip, port)` and, when that
promise rejects, the `.catch` logs and calls `process.exit(1)`. -/
def meshListeningHandlerActions (ip : String) (port : Nat)
    (registerFails : Bool) : List MeshAction :=
  .registerServer ip port :: (if registerFails then [.exitProcess 1] else [])

/-- `Mesh.#startMeshServer` (mesh.mjs lines 613-626): creates the server,
attaches the handlers (among them `#meshListeningHandler` on `listening`)
and calls `listen`.  It performs no registration itself. -/
def startMeshServerActions (ip : String) (port : Nat) : List MeshAction :=
  [.createHttp2Server, .listenCall ip port]

/-- Coordinator branch of `Mesh.start()` (mesh.mjs lines 689-696): discover
peers, connect outward, start the mesh server.  The `listening` event fires
only if the listener actually binds (`listenerBinds`), and only then does
`#meshListeningHandler` run, with `registerFails` telling whether this very
first registration call rejects. -/
def primaryStartupTrace (ip : String) (port : Nat)
    (listenerBinds registerFails : Bool) : List MeshAction :=
  .getOtherServers :: .connectToServers :: startMeshServerActions ip port ++
    (if listenerBinds then
        .listeningBound :: meshListeningHandlerActions ip port registerFails
      else [])

/-! ### Helper lemmas -/

theorem getLast?_append_singleton {α : Type} (l : List α) (x : α) :
    (l ++ [x]).getLast? = some x := by
  induction l with
  | nil => rfl
  | cons a t ih =>
    cases t with
    | nil => rfl
    | cons b u => simpa using ih

/-- The fragment record `#fragmentInterpreter` produces for the chunk
`[2, 3, 104, 105, 106]`: a non-final binary fragment with payload
`[104, 105, 106]`. -/
def binaryNonFinalFragment : Fragment :=
  { isFinal := 0, rsv1 := 0, rsv2 := 0, rsv3 := 0, opcode := 2,
    payloadLength := 3, usesMasking := false, maskingKey := none,
    payload := [104, 105, 106] }

/-! ### Claims -/

/-- C1: the spec claims `decode(encode(frame)) = frame` for Text/Binary at
payload lengths {0, 1, 125, 126, 127, 65535, 65536} with minimal length
encodings.  In the code, for a 126-byte payload the encoder emits a single
extended length byte (`length % 256`), so the decoder — which skips two
extended length bytes — drops the first payload byte, and for a 65536-byte
payload the encoder throws a `TypeError`; the round-trip law fails. -/
theorem frame_roundtrip_fails_at_extended_lengths (p q : List Nat)
    (hp : p.length = 126) (hq : q.length = 65536) :
    sendFrame ⟨2, p⟩ = .ok [130 :: 126 :: 126 :: p] ∧
    (fragmentInterpreter (130 :: 126 :: 126 :: p)).map
        (fun f => (f.isFinal, f.opcode, f.payloadLength, f.payload)) =
      some (128, 2, 126, p.drop 1) ∧
    p.drop 1 ≠ p ∧
    sendFrame ⟨2, q⟩ = .error (.typeError "Cannot convert a BigInt to a number") := by
  have h1 : (126 : Nat) &&& 127 = 126 := by decide
  have h2 : (126 : Nat) &&& 128 = 0 := by decide
  have h3 : (130 : Nat) &&& 128 = 128 := by decide
  have h4 : (130 : Nat) &&& 15 = 2 := by decide
  refine ⟨by simp [sendFrame, hp], ?_, ?_, by simp [sendFrame, hq]⟩
  · simp [fragmentInterpreter, h1, h2, h3, h4]
  · intro h
    have hlen := congrArg List.length h
    simp [hp] at hlen

/-- Witness for C1 at the concrete payloads `replicate 126 7` and
`replicate 65536 7`. -/
theorem frame_roundtrip_fails_at_extended_lengths_witness :
    sendFrame ⟨2, List.replicate 126 7⟩ =
        .ok [130 :: 126 :: 126 :: List.replicate 126 7] ∧
      (fragmentInterpreter (130 :: 126 :: 126 :: List.replicate 126 7)).map
          (fun f => (f.isFinal, f.opcode, f.payloadLength, f.payload)) =
        some (128, 2, 126, (List.replicate 126 7).drop 1) ∧
      (List.replicate 126 7).drop 1 ≠ List.replicate 126 7 ∧
      sendFrame ⟨2, List.replicate 65536 7⟩ =
        .error (.typeError "Cannot convert a BigInt to a number") :=
  frame_roundtrip_fails_at_extended_lengths
    (List.replicate 126 7) (List.replicate 65536 7)
    (by rw [List.length_replicate]) (by rw [List.length_replicate])

/-- C2: the spec claims the 126 length field is followed by a big-endian
16-bit length and the 127 field by a big-endian 64-bit length.  The code's
126 branch (`new Uint16Array(new Uint8Array(slice))[0]`) converts
element-wise and returns only the first extended byte, and its 127 branch
reads the eight bytes platform-little-endian: on extended bytes `[1, 44]`
(big-endian 300) it decodes 1, and on `[0,0,0,0,0,0,1,0]` (big-endian 256)
it decodes `256^6`. -/
theorem length_field_not_bigendian (rest : List Nat) :
    ((fragmentInterpreter (130 :: 126 :: 1 :: 44 :: rest)).map
        (fun f => f.payloadLength) = some 1) ∧
    specBigEndianValue [1, 44] = 300 ∧
    ((fragmentInterpreter
        (130 :: 127 :: 0 :: 0 :: 0 :: 0 :: 0 :: 0 :: 1 :: 0 :: rest)).map
        (fun f => f.payloadLength) = some 281474976710656) ∧
    specBigEndianValue [0, 0, 0, 0, 0, 0, 1, 0] = 256 := by
  have h1 : (126 : Nat) &&& 127 = 126 := by decide
  have h2 : (127 : Nat) &&& 127 = 127 := by decide
  have h3 : (127 : Nat) &&& 128 = 0 := by decide
  refine ⟨?_, by decide, ?_, by decide⟩
  · simp [fragmentInterpreter, h1]
  · simp only [fragmentInterpreter, h2, h3]
    norm_num
    decide

/-- C4: the spec claims a final Ping fragment arriving while earlier
fragments of a data message are accumulated triggers one Pong frame, pops
only the Ping fragment and emits no `frame` event.  In the code,
`pong()` runs `#sendFrame` with the PONG opcode, whose write references the
nonexistent static `WsH2Stream.OPCODES`, so a `TypeError` is thrown before
any Pong bytes are written and before the Ping fragment is popped. -/
theorem ping_mid_message_throws :
    dataListener ⟨[]⟩ [2, 3, 104, 105, 106] =
        .ok (⟨[some binaryNonFinalFragment]⟩, []) ∧
      dataListener ⟨[some binaryNonFinalFragment]⟩ [137, 0] =
        .error (.typeError
          "Cannot read properties of undefined (reading OPCODES)") := by
  constructor
  · rfl
  · rfl

/-- C8: the spec claims a zero-length chunk is treated as "no frame yet"
with no event, no error and an unchanged accumulator.  The decoder does
return the no-frame result, but `#dataListener` still pushes that
`undefined` result and `#parseFrame` then reads `.isFinal` off it, throwing
a `TypeError` (and leaving the `undefined` entry in the accumulator). -/
theorem empty_chunk_throws (st : ChannelState) :
    fragmentInterpreter [] = none ∧
    dataListener st [] =
      .error (.typeError
        "Cannot read properties of undefined (reading isFinal)") := by
  refine ⟨rfl, ?_⟩
  have hfrag : fragmentInterpreter [] = none := rfl
  simp only [dataListener, hfrag]
  rw [parseFrame, getLast?_append_singleton]

/-- C3 counterexample: starting from a reachable registry (two sessions
registered, no links), a first handshake from 127.0.0.1 declaring
`127.0.0.1:9000` is accepted, and a second handshake from 127.0.0.1
declaring `localhost:9000` — the same peer identity under the loopback-alias
equivalence the claim requires — is ALSO accepted with status 200 and a
second record, instead of the claimed not-found/conflict rejection:
deduplication uses the exact declared `ip:port` string only. -/
theorem loopback_alias_duplicate_link_accepted :
    meshStreamHandler ⟨[(1, []), (2, [])], []⟩
        ⟨1, 3, "127.0.0.1", some "127.0.0.1", some "9000"⟩ =
      .ok (⟨[(1, [3]), (2, [])], [("127.0.0.1:9000", 3)]⟩, ⟨200, false⟩) ∧
    meshStreamHandler ⟨[(1, [3]), (2, [])], [("127.0.0.1:9000", 3)]⟩
        ⟨2, 5, "127.0.0.1", some "localhost", some "9000"⟩ =
      .ok (⟨[(1, [3]), (2, [5])],
            [("localhost:9000", 5), ("127.0.0.1:9000", 3)]⟩, ⟨200, false⟩) := by
  constructor
  · rfl
  · rfl

/-- C3, amended: the registry keeps at most one record per *exact declared*
`(ip, port)` string (loopback aliases are distinct identities for
deduplication): a second inbound handshake declaring the identical
`(ip, port)` — and passing the origin check — is answered with status 404,
no record is added to either index, and the first record is untouched. -/
theorem duplicate_exact_identity_rejected (st : MeshState) (req : StreamReq)
    (ip port : String) (s : Nat)
    (hip : req.meshIp = some ip) (hport : req.meshPort = some port)
    (horigin : ip = req.remoteAddress ∨
      (localhostVariants.contains ip ∧
       localhostVariants.contains req.remoteAddress))
    (hdup : lookupKey st.byIPAndPort (ip ++ ":" ++ port) = some s) :
    meshStreamHandler st req = .ok (st, ⟨404, true⟩) ∧
    lookupKey st.byIPAndPort (ip ++ ":" ++ port) = some s := by
  have hc : ¬(ip ≠ req.remoteAddress ∧
      ¬(localhostVariants.contains ip ∧
        localhostVariants.contains req.remoteAddress)) := by
    rcases horigin with h | h
    · exact fun hand => hand.1 h
    · exact fun hand => hand.2 h
  refine ⟨?_, hdup⟩
  simp only [meshStreamHandler, hip, hport, if_neg hc, hdup]

/-- Witness for the amended C3: the second handshake declaring the already
linked `127.0.0.1:9000` is rejected with 404 and the record survives. -/
theorem duplicate_exact_identity_rejected_witness :
    meshStreamHandler ⟨[(1, [3]), (2, [])], [("127.0.0.1:9000", 3)]⟩
        ⟨2, 5, "127.0.0.1", some "127.0.0.1", some "9000"⟩ =
      .ok (⟨[(1, [3]), (2, [])], [("127.0.0.1:9000", 3)]⟩, ⟨404, true⟩) ∧
    lookupKey [("127.0.0.1:9000", 3)] ("127.0.0.1" ++ ":" ++ "9000") = some 3 :=
  duplicate_exact_identity_rejected
    ⟨[(1, [3]), (2, [])], [("127.0.0.1:9000", 3)]⟩
    ⟨2, 5, "127.0.0.1", some "127.0.0.1", some "9000"⟩
    "127.0.0.1" "9000" 3 rfl rfl (Or.inl rfl) (by decide)

/-- C5: the spec claims that on a successful outbound handshake response the
local side records a LinkRecord (making the identity resolvable for relay),
begins relay on the stream and sends the one-shot `"ping"` payload.  The
code's `response` handler does attach the stream-data relay handlers and
write `"ping"`, but it records nothing: both registry indexes are returned
exactly as they were, so the identity stays unresolvable. -/
theorem outbound_response_records_no_link (st : MeshState) (key : String) :
    outboundResponseHandler st key =
      (st, [.attachStreamDataHandlers key, .streamWrite "ping"]) ∧
    lookupKey (outboundResponseHandler ⟨[], []⟩ key).1.byIPAndPort key =
      none := by
  exact ⟨rfl, rfl⟩

/-- C6: with both mesh headers present, a handshake whose declared ip and
observed origin are both loopback variants is accepted (status 200, record
created) provided the identity is not already linked and the session is
registered; a handshake whose declared ip differs from the origin and where
the two are not both loopback variants is rejected with status 400 and the
registry is unchanged (no link created). -/
theorem loopback_equivalence_and_mismatch_rejection (st : MeshState)
    (req : StreamReq) (ip port : String)
    (hip : req.meshIp = some ip) (hport : req.meshPort = some port) :
    (localhostVariants.contains ip = true →
      localhostVariants.contains req.remoteAddress = true →
      lookupKey st.byIPAndPort (ip ++ ":" ++ port) = none →
      (lookupKey st.bySession req.sessionId).isSome = true →
      ∃ st2, meshStreamHandler st req = .ok (st2, ⟨200, false⟩) ∧
        lookupKey st2.byIPAndPort (ip ++ ":" ++ port) = some req.streamId) ∧
    (ip ≠ req.remoteAddress →
      ¬(localhostVariants.contains ip = true ∧
        localhostVariants.contains req.remoteAddress = true) →
      meshStreamHandler st req = .ok (st, ⟨400, true⟩)) := by
  constructor
  · intro hv1 hv2 hnodup hsess
    have hc : ¬(ip ≠ req.remoteAddress ∧
        ¬(localhostVariants.contains ip ∧
          localhostVariants.contains req.remoteAddress)) := by
      exact fun hand => hand.2 ⟨hv1, hv2⟩
    refine ⟨⟨st.bySession.map (fun e =>
        if e.1 = req.sessionId then (e.1, e.2 ++ [req.streamId]) else e),
        (ip ++ ":" ++ port, req.streamId) :: st.byIPAndPort⟩, ?_, ?_⟩
    · rcases hs : lookupKey st.bySession req.sessionId with _ | strs
      · rw [hs] at hsess; simp at hsess
      · simp only [meshStreamHandler, hip, hport, if_neg hc, hnodup, hs]
    · simp [lookupKey]
  · intro hne hnl
    have hc : ip ≠ req.remoteAddress ∧
        ¬(localhostVariants.contains ip ∧
          localhostVariants.contains req.remoteAddress) := ⟨hne, hnl⟩
    simp only [meshStreamHandler, hip, hport, if_pos hc]

/-- Witness for C6: `mesh-ip: localhost` observed from `127.0.0.1` is
accepted into an empty registry; `mesh-ip: 10.0.0.7` observed from
`10.0.0.9` is rejected with 400 and no registry change. -/
theorem loopback_equivalence_and_mismatch_rejection_witness :
    (∃ st2, meshStreamHandler ⟨[(2, [])], []⟩
        ⟨2, 5, "127.0.0.1", some "localhost", some "9000"⟩ =
          .ok (st2, ⟨200, false⟩) ∧
        lookupKey st2.byIPAndPort ("localhost" ++ ":" ++ "9000") = some 5) ∧
    meshStreamHandler ⟨[(2, [])], []⟩
        ⟨2, 5, "10.0.0.9", some "10.0.0.7", some "9000"⟩ =
      .ok (⟨[(2, [])], []⟩, ⟨400, true⟩) :=
  ⟨(loopback_equivalence_and_mismatch_rejection ⟨[(2, [])], []⟩
      ⟨2, 5, "127.0.0.1", some "localhost", some "9000"⟩
      "localhost" "9000" rfl rfl).1
      (by decide) (by decide) (by decide) (by decide),
   (loopback_equivalence_and_mismatch_rejection ⟨[(2, [])], []⟩
      ⟨2, 5, "10.0.0.9", some "10.0.0.7", some "9000"⟩
      "10.0.0.7" "9000" rfl rfl).2
      (by decide) (by decide)⟩

/-- C7: in the coordinator startup trace, no registration action occurs
before the `listening` event (registration is announced only by the
`listening` handler), and when that very first registration call fails the
handler exits the process with code 1. -/
theorem registration_only_after_listening (ip : String) (port : Nat)
    (listenerBinds registerFails : Bool) :
    ((primaryStartupTrace ip port listenerBinds registerFails).takeWhile
        (fun a => !(isListeningBound a))).all
      (fun a => !(isRegisterAction a)) = true ∧
    (listenerBinds = true → registerFails = true →
      MeshAction.exitProcess 1 ∈
        primaryStartupTrace ip port listenerBinds registerFails) := by
  cases listenerBinds <;> cases registerFails <;>
    simp [primaryStartupTrace, startMeshServerActions,
      meshListeningHandlerActions, isListeningBound, isRegisterAction]

/-- Witness for C7 at a concrete address, with the listener bound and the
first registration failing. -/
theorem registration_only_after_listening_witness :
    ((primaryStartupTrace "127.0.0.1" 9000 true true).takeWhile
        (fun a => !(isListeningBound a))).all
      (fun a => !(isRegisterAction a)) = true ∧
    MeshAction.exitProcess 1 ∈ primaryStartupTrace "127.0.0.1" 9000 true true :=
  ⟨(registration_only_after_listening "127.0.0.1" 9000 true true).1,
   (registration_only_after_listening "127.0.0.1" 9000 true true).2 rfl rfl⟩

/-- C9: the upgrade handshake always responds with status 200; when the
request carries a (non-empty) subprotocol header whose comma-separated
entries have a non-empty intersection with the allow-list, the response
echoes exactly that intersection — the order-preserving filter of the
client's list — joined with commas; when the intersection is empty or the
header is absent, no subprotocol header is echoed and the status is still
200. -/
theorem subprotocol_negotiation (accepted : List String) (h : String)
    (hne : h ≠ "") :
    (handshake accepted (some h)).1 = 200 ∧
    handshake accepted none = (200, none) ∧
    (((h.splitOn ",").filter (fun p => accepted.contains p)) ≠ [] →
      (handshake accepted (some h)).2 =
        some (String.intercalate ","
          ((h.splitOn ",").filter (fun p => accepted.contains p)))) ∧
    (((h.splitOn ",").filter (fun p => accepted.contains p)) = [] →
      (handshake accepted (some h)).2 = none) := by
  refine ⟨?_, rfl, ?_, ?_⟩
  · simp only [handshake, if_neg hne]
    split <;> rfl
  · intro hmne
    have hm : ¬((h.splitOn ",").filter (fun p => accepted.contains p)).length = 0 := by
      simpa [List.length_eq_zero] using hmne
    simp only [handshake, if_neg hne, if_neg hm]
  · intro hmeq
    have hm : ((h.splitOn ",").filter (fun p => accepted.contains p)).length = 0 := by
      rw [hmeq]; rfl
    simp only [handshake, if_neg hne, if_pos hm]

/-- Witness for C9: allow-list `["chat", "cbor"]`; the request
`"a,chat,b,cbor"` is echoed `"chat,cbor"`, and (same allow-list) the
request `"x,y"` yields no subprotocol header; both respond 200. -/
theorem subprotocol_negotiation_witness :
    (handshake ["chat", "cbor"] (some "a,chat,b,cbor")).1 = 200 ∧
    ((("a,chat,b,cbor".splitOn ",").filter
        (fun p => (["chat", "cbor"]).contains p)) ≠ [] →
      (handshake ["chat", "cbor"] (some "a,chat,b,cbor")).2 =
        some (String.intercalate ","
          (("a,chat,b,cbor".splitOn ",").filter
            (fun p => (["chat", "cbor"]).contains p)))) ∧
    ((("x,y".splitOn ",").filter (fun p => (["chat"] : List String).contains p)) = [] →
      (handshake ["chat"] (some "x,y")).2 = none) :=
  ⟨(subprotocol_negotiation ["chat", "cbor"] "a,chat,b,cbor" (by decide)).1,
   (subprotocol_negotiation ["chat", "cbor"] "a,chat,b,cbor" (by decide)).2.2.1,
   (subprotocol_negotiation ["chat"] "x,y" (by decide)).2.2.2⟩

/-- C10: with the default `"logger"` error protocol, after a first
successful `respond` stored headers `h1`, a second `respond` does not
throw, performs no operation on the underlying stream (it only logs), and
leaves `sentHeaders` equal to `h1`. -/
theorem second_respond_is_ignored (st : H2StreamState) (h1 h2 : Headers)
    (o1 o2 : RespondOptions) (st1 : H2StreamState) (ops1 : List StreamOp)
    (hep : st.errorProtocol = "logger") (hsent : st.sentHeaders = none)
    (hr : respond st h1 o1 = .ok (st1, ops1)) :
    respond st1 h2 o2 = .ok (st1, [.logErrorOp "Headers already sent."]) ∧
    st1.sentHeaders = some h1 := by
  simp only [respond, hsent] at hr
  have hlog : st1.errorProtocol = "logger" ∧ st1.sentHeaders = some h1 := by
    by_cases he : o1.endStream = true
    · rw [if_pos he] at hr
      cases hr
      exact ⟨hep, rfl⟩
    · rw [if_neg he] at hr
      cases hr
      exact ⟨hep, rfl⟩
  have hthrow : ¬st1.errorProtocol = "throw" := by
    rw [hlog.1]; decide
  refine ⟨?_, hlog.2⟩
  simp only [respond, hlog.2, if_neg hthrow]

/-- Witness for C10 at a concrete stream state and concrete headers. -/
theorem second_respond_is_ignored_witness :
    respond
        { sentHeaders := some [("content-type", "text/plain")],
          closed := false, errorProtocol := "logger" }
        [("x", "y")] {} =
      .ok ({ sentHeaders := some [("content-type", "text/plain")],
             closed := false, errorProtocol := "logger" },
        [.logErrorOp "Headers already sent."]) ∧
    ({ sentHeaders := some [("content-type", "text/plain")],
       closed := false, errorProtocol := "logger" } : H2StreamState).sentHeaders =
      some [("content-type", "text/plain")] :=
  second_respond_is_ignored
    { sentHeaders := none, closed := false, errorProtocol := "logger" }
    [("content-type", "text/plain")] [("x", "y")] {} {}
    { sentHeaders := some [("content-type", "text/plain")],
      closed := false, errorProtocol := "logger" }
    [.streamRespond [("content-type", "text/plain")] false]
    rfl rfl rfl

end H2ws
